import Mathlib

/-!
Shallow embedding of `src/index.ts` of columk1/workers-rag-example: a
Cloudflare-Workers RAG pipeline with two variants of the same worker
(variant 1 uses a shared Xata client, variant 2 builds the client per
request; the `/query` and `/notes` handler logic is otherwise parallel).

JavaScript numbers are modelled as `ℚ`; possibly-`undefined` values as
`Option`; a thrown exception as `Except.error`; external calls (AI model,
vector store) as function parameters returning `Except`.  Each handler is
embedded together with the trace of external calls it performs, so that
"stage X is never invoked" is expressible.
-/

namespace WorkersRag

/-- A record returned by `xata.db.Notes.vectorSearch`: the note text and the
similarity score `record.xata.score`, which may be absent (`undefined`). -/
structure Record where
  text : String
  score : Option ℚ
deriving DecidableEq, Repr

/-- The object returned by `vectorSearch` in variant 1 (`results`), holding
`results.records`. -/
structure SearchResults where
  records : List Record
deriving DecidableEq, Repr

/-- The embedding-model result `await c.env.AI.run('@cf/baai/bge-base-en-v1.5', ...)`:
an object with a `data` array of vectors. -/
structure EmbedResult where
  data : List (List ℚ)
deriving DecidableEq, Repr

/-- JavaScript truthiness of a number: truthy iff nonzero (NaN is out of
scope for the rational model). -/
def truthyNum (q : ℚ) : Bool := q ≠ 0

/-- Variant 2 filter callback, line 182:
`(record) => record.xata.score ?? 0 > SIMILARITY_CUTOFF`.
By JavaScript operator precedence this parses as
`record.xata.score ?? (0 > SIMILARITY_CUTOFF)`: when the score is present
the callback returns the score itself (coerced to a boolean by `filter`
via number truthiness); only when the score is absent is the boolean
`0 > cutoff` returned. -/
def keepV2 (cutoff : ℚ) (r : Record) : Bool :=
  match r.score with
  | some s => truthyNum s
  | none => decide ((0 : ℚ) > cutoff)

/-- Variant 2 context selection, lines 181-183:
`results.records.length ? results.records.filter(...).map((record) => record.text) : []`,
with the cutoff constant (`SIMILARITY_CUTOFF = 1.5` at line 171) abstracted
as a parameter. -/
def filterNotesV2 (cutoff : ℚ) (records : List Record) : List String :=
  if records.length ≠ 0 then (records.filter (keepV2 cutoff)).map Record.text
  else []

/-- Variant 1 context selection, lines 51-55:
`let notes = []; if (results) notes = results.records.map((record) => record.text)`.
No filter is applied at all; `SIMILARITY_CUTOFF = 0.75` (line 38) is unused
(its only uses are commented out). -/
def notesStepV1 (results : Option SearchResults) : List String :=
  match results with
  | some res => res.records.map Record.text
  | none => []

/-- The spec's algorithm for `ContextAssembler.assemble`, for comparison.
Modelled from the spec: "filter `scoredNotes` to those with `score > cutoff`
(strict inequality), preserving the input's descending-score order; then
take at most `maxNotes` from the front". A missing score is treated as 0,
the intent visible in the source's `?? 0`. -/
def specAssemble (scoredNotes : List Record) (cutoff : ℚ) (maxNotes : ℕ) :
    List String :=
  ((scoredNotes.filter (fun r => decide (r.score.getD 0 > cutoff))).map
    Record.text).take maxNotes

/-- Raising the cutoff can only shrink the set kept by the variant-2 filter
callback. -/
theorem keepV2_antitone {c1 c2 : ℚ} (h : c1 ≤ c2) (r : Record)
    (hk : keepV2 c2 r = true) : keepV2 c1 r = true := by
  cases r with
  | mk t s =>
    cases s with
    | none =>
      simp only [keepV2, decide_eq_true_eq] at hk ⊢
      exact lt_of_le_of_lt h hk
    | some q => simpa [keepV2] using hk

/-- C1: the context-selection step does not implement the claimed
`score > cutoff` filter.  In variant 2, a record carrying score 1 — below
the cutoff 3/2 (`SIMILARITY_CUTOFF = 1.5`) — is nevertheless included in
the context, because the filter callback parses as
`score ?? (0 > cutoff)` and so never compares the score with the cutoff;
variant 1 includes every retrieved record with no filter at all.  The
spec-faithful assembler excludes that record. -/
theorem contextSelection_code_bug :
    filterNotesV2 (3 / 2) [⟨"Paris is the capital of France.", some 1⟩]
      = ["Paris is the capital of France."]
    ∧ notesStepV1 (some ⟨[⟨"Paris is the capital of France.", some 1⟩]⟩)
      = ["Paris is the capital of France."]
    ∧ ¬ ((1 : ℚ) > 3 / 2)
    ∧ specAssemble [⟨"Paris is the capital of France.", some 1⟩] (3 / 2) 2
      = [] := by
  refine ⟨by decide, by decide, by norm_num, ?_⟩
  norm_num [specAssemble, List.filter_cons]

/-- C2: variant 2's context selection is monotonic in the cutoff — for the
same record list, a larger cutoff never yields a larger context. -/
theorem filterNotesV2_monotone (records : List Record) {c1 c2 : ℚ}
    (h : c1 ≤ c2) :
    (filterNotesV2 c2 records).length ≤ (filterNotesV2 c1 records).length := by
  unfold filterNotesV2
  by_cases hlen : records.length ≠ 0
  · rw [if_pos hlen, if_pos hlen]
    simp only [List.length_map]
    exact (List.monotone_filter_right records
      (fun r hr => keepV2_antitone h r hr)).length_le
  · rw [if_neg hlen, if_neg hlen]

/-- Witness for C2 at a concrete input: cutoffs 1 ≤ 2 on a two-record list. -/
theorem filterNotesV2_monotone_witness :
    (filterNotesV2 2 [⟨"a", some 1⟩, ⟨"b", none⟩]).length
      ≤ (filterNotesV2 1 [⟨"a", some 1⟩, ⟨"b", none⟩]).length :=
  filterNotesV2_monotone [⟨"a", some 1⟩, ⟨"b", none⟩] (by norm_num)

/-- Chat roles used by the worker (`RoleScopedChatInput`): `system` and `user`. -/
inductive Role where
  | system
  | user
deriving DecidableEq, Repr

/-- One chat message `{ role, content }`. -/
structure ChatMessage where
  role : Role
  content : String
deriving DecidableEq, Repr

/-- The context block, lines 59 / 186:
`` notes.length ? `Context:\n${notes.map((note) => `- ${note}`).join('\n')}` : '' ``. -/
def contextMessage (notes : List String) : String :=
  if notes.length ≠ 0 then
    "Context:\n" ++ String.intercalate "\n" (notes.map (fun note => "- " ++ note))
  else ""

/-- The fixed system prompt, lines 60-61 / 187-188. -/
def systemPromptStr : String :=
  "You are a helpful assistant. When answering the question or responding, use the context provided, if it is provided and relevant."

/-- The message sequence, lines 71-75 / 198-202 (identical in both variants):
`[...(notes.length ? [{role: 'system', content: contextMessage}] : []),
  {role: 'system', content: systemPrompt}, {role: 'user', content: question}]`. -/
def messages (notes : List String) (systemPrompt question : String) :
    List ChatMessage :=
  (if notes.length ≠ 0 then [⟨Role.system, contextMessage notes⟩] else [])
    ++ [⟨Role.system, systemPrompt⟩, ⟨Role.user, question⟩]

/-- C3: with an empty context the prompt is exactly
`[system(systemPrompt), user(question)]`; with a non-empty context it is
exactly `[system(context block), system(systemPrompt), user(question)]`. -/
theorem messages_shape (systemPrompt question : String) (notes : List String) :
    (notes = [] →
      messages notes systemPrompt question
        = [⟨Role.system, systemPrompt⟩, ⟨Role.user, question⟩])
    ∧ (notes ≠ [] →
      messages notes systemPrompt question
        = [⟨Role.system, contextMessage notes⟩,
           ⟨Role.system, systemPrompt⟩, ⟨Role.user, question⟩]) := by
  constructor
  · intro h
    subst h
    rfl
  · intro h
    unfold messages
    rw [if_pos (by simpa [List.length_eq_zero] using h)]
    rfl

/-- Witness for C3: both cases at concrete inputs. -/
theorem messages_shape_witness :
    messages [] "s" "q" = [⟨Role.system, "s"⟩, ⟨Role.user, "q"⟩]
    ∧ messages ["a"] "s" "q"
      = [⟨Role.system, contextMessage ["a"]⟩,
         ⟨Role.system, "s"⟩, ⟨Role.user, "q"⟩] :=
  ⟨(messages_shape "s" "q" []).1 rfl,
   (messages_shape "s" "q" ["a"]).2 (by decide)⟩

/-- The shape of the value returned by the generation call
`await c.env.AI.run(model, inputs)`: a `ReadableStream`, a plain object
whose `response` field may be absent, or some other (non-object) value. -/
inductive AiResult where
  | stream
  | obj (response : Option String)
  | other
deriving DecidableEq, Repr

/-- Response handling, lines 81-88 / 208-215:
`if (!(res instanceof ReadableStream) && typeof res === 'object')`
return `res.response ?? 'No response available'`, else return
`'Unable to process the AI response.'`.  Both branches return normally
(`c.text`); neither throws. -/
def handleResponse : AiResult → String
  | .obj response => response.getD "No response available"
  | _ => "Unable to process the AI response."

/-- The question default, lines 31 / 164:
`c.req.query('text') || 'What is the square root of 9?'` — an absent or
empty (falsy) query parameter falls back to the fixed default. -/
def defaultQuestion : String := "What is the square root of 9?"

def questionOf (queryText : Option String) : String :=
  match queryText with
  | some t => if t = "" then defaultQuestion else t
  | none => defaultQuestion

/-- One external call performed by the `/query` handler, with its argument. -/
inductive Call where
  | embedCall (text : String)
  | searchCall (vector : Option (List ℚ))
  | generateCall (msgs : List ChatMessage)
deriving DecidableEq, Repr

/-- The `/query` handler of variant 1, lines 30-89.  External calls are
parameters; the result pairs the HTTP outcome (`Except.error` = a thrown
exception from an external call, `Except.ok` = the text returned) with the
trace of external calls made.  Note `embeddings.data[0]` (line 35) is read
without any check, and the possibly-`undefined` vector is passed straight
to `vectorSearch` (line 43). -/
def answerQueryV1 (queryText : Option String)
    (embed : String → Except String EmbedResult)
    (search : Option (List ℚ) → Except String (Option SearchResults))
    (generate : List ChatMessage → Except String AiResult) :
    Except String String × List Call :=
  match embed (questionOf queryText) with
  | .error e => (.error e, [.embedCall (questionOf queryText)])
  | .ok embeddings =>
    match search embeddings.data.head? with
    | .error e =>
      (.error e,
       [.embedCall (questionOf queryText), .searchCall embeddings.data.head?])
    | .ok results =>
      match generate (messages (notesStepV1 results) systemPromptStr
          (questionOf queryText)) with
      | .error e =>
        (.error e,
         [.embedCall (questionOf queryText), .searchCall embeddings.data.head?,
          .generateCall (messages (notesStepV1 results) systemPromptStr
            (questionOf queryText))])
      | .ok res =>
        (.ok (handleResponse res),
         [.embedCall (questionOf queryText), .searchCall embeddings.data.head?,
          .generateCall (messages (notesStepV1 results) systemPromptStr
            (questionOf queryText))])

/-- The prompt always ends in the user message carrying the question. -/
theorem messages_getLast (notes : List String) (sp q : String) :
    (messages notes sp q).getLast? = some ⟨Role.user, q⟩ := by
  unfold messages
  by_cases h : notes.length ≠ 0
  · rw [if_pos h]; rfl
  · rw [if_neg h]; rfl

/-- Helper: the `/query` handler when the embedding call throws. -/
theorem aq_embed_error {queryText : Option String}
    {embed : String → Except String EmbedResult} {e : String}
    (hemb : embed (questionOf queryText) = .error e)
    (search : Option (List ℚ) → Except String (Option SearchResults))
    (generate : List ChatMessage → Except String AiResult) :
    answerQueryV1 queryText embed search generate
      = (.error e, [.embedCall (questionOf queryText)]) := by
  unfold answerQueryV1
  rw [hemb]

/-- Helper: the `/query` handler when the vector search throws. -/
theorem aq_search_error {queryText : Option String}
    {embed : String → Except String EmbedResult} {embeddings : EmbedResult}
    {search : Option (List ℚ) → Except String (Option SearchResults)}
    {e : String}
    (hemb : embed (questionOf queryText) = .ok embeddings)
    (hsearch : search embeddings.data.head? = .error e)
    (generate : List ChatMessage → Except String AiResult) :
    answerQueryV1 queryText embed search generate
      = (.error e,
         [.embedCall (questionOf queryText),
          .searchCall embeddings.data.head?]) := by
  unfold answerQueryV1
  simp only [hemb, hsearch]

/-- Helper: the `/query` handler when the generation call throws. -/
theorem aq_generate_error {queryText : Option String}
    {embed : String → Except String EmbedResult} {embeddings : EmbedResult}
    {search : Option (List ℚ) → Except String (Option SearchResults)}
    {results : Option SearchResults}
    {generate : List ChatMessage → Except String AiResult} {e : String}
    (hemb : embed (questionOf queryText) = .ok embeddings)
    (hsearch : search embeddings.data.head? = .ok results)
    (hg : generate (messages (notesStepV1 results) systemPromptStr
        (questionOf queryText)) = .error e) :
    answerQueryV1 queryText embed search generate
      = (.error e,
         [.embedCall (questionOf queryText), .searchCall embeddings.data.head?,
          .generateCall (messages (notesStepV1 results) systemPromptStr
            (questionOf queryText))]) := by
  unfold answerQueryV1
  simp only [hemb, hsearch, hg]

/-- Helper: the `/query` handler on a complete run. -/
theorem aq_generate_ok {queryText : Option String}
    {embed : String → Except String EmbedResult} {embeddings : EmbedResult}
    {search : Option (List ℚ) → Except String (Option SearchResults)}
    {results : Option SearchResults}
    {generate : List ChatMessage → Except String AiResult} {res : AiResult}
    (hemb : embed (questionOf queryText) = .ok embeddings)
    (hsearch : search embeddings.data.head? = .ok results)
    (hg : generate (messages (notesStepV1 results) systemPromptStr
        (questionOf queryText)) = .ok res) :
    answerQueryV1 queryText embed search generate
      = (.ok (handleResponse res),
         [.embedCall (questionOf queryText), .searchCall embeddings.data.head?,
          .generateCall (messages (notesStepV1 results) systemPromptStr
            (questionOf queryText))]) := by
  unfold answerQueryV1
  simp only [hemb, hsearch, hg]

/-- Helper: whenever the generation stage is reached with messages `msgs`
and the model call returns `res` without throwing, the handler returns the
text produced by the response handling on `res`. -/
theorem answerQueryV1_generate_ok (queryText : Option String)
    (embed : String → Except String EmbedResult)
    (search : Option (List ℚ) → Except String (Option SearchResults))
    (generate : List ChatMessage → Except String AiResult)
    (msgs : List ChatMessage) (res : AiResult)
    (hmem : Call.generateCall msgs
      ∈ (answerQueryV1 queryText embed search generate).2)
    (hgen : generate msgs = .ok res) :
    (answerQueryV1 queryText embed search generate).1
      = .ok (handleResponse res) := by
  cases hemb : embed (questionOf queryText) with
  | error e =>
    rw [aq_embed_error hemb search generate] at hmem
    simp at hmem
  | ok embeddings =>
    cases hsearch : search embeddings.data.head? with
    | error e =>
      rw [aq_search_error hemb hsearch generate] at hmem
      simp at hmem
    | ok results =>
      cases hg : generate (messages (notesStepV1 results) systemPromptStr
          (questionOf queryText)) with
      | error e =>
        rw [aq_generate_error hemb hsearch hg] at hmem
        simp at hmem
        subst hmem
        rw [hgen] at hg
        exact absurd hg (by simp)
      | ok r =>
        rw [aq_generate_ok hemb hsearch hg] at hmem
        rw [aq_generate_ok hemb hsearch hg]
        simp at hmem
        subst hmem
        rw [hgen] at hg
        cases hg
        rfl

/-- C4 counterexample: a concrete run in which the generation model call
returns a `ReadableStream`.  The handler completes successfully with the
substitute string, rather than failing. -/
theorem generate_stream_counterexample :
    (answerQueryV1 (some "q") (fun _ => .ok ⟨[[1]]⟩)
      (fun _ => .ok (some ⟨[]⟩)) (fun _ => .ok .stream)).1
      = .ok "Unable to process the AI response." := by
  rfl

/-- C4 (amended): whenever the generation call in a run of the `/query`
handler returns any response shape that is not a plain object result
(a streaming response, or any other non-object value), the handler does
not fail: it completes with the fixed substitute string
`Unable to process the AI response.`. -/
theorem generate_non_object_soft_fallback (queryText : Option String)
    (embed : String → Except String EmbedResult)
    (search : Option (List ℚ) → Except String (Option SearchResults))
    (generate : List ChatMessage → Except String AiResult)
    (msgs : List ChatMessage) (res : AiResult)
    (hmem : Call.generateCall msgs
      ∈ (answerQueryV1 queryText embed search generate).2)
    (hgen : generate msgs = .ok res)
    (hshape : ∀ r, res ≠ AiResult.obj r) :
    (answerQueryV1 queryText embed search generate).1
      = .ok "Unable to process the AI response." := by
  rw [answerQueryV1_generate_ok queryText embed search generate msgs res hmem hgen]
  cases res with
  | stream => rfl
  | obj r => exact absurd rfl (hshape r)
  | other => rfl

/-- Witness for C4 (amended) at a concrete run, with the non-stream,
non-object response shape. -/
theorem generate_non_object_soft_fallback_witness :
    (answerQueryV1 (some "w") (fun _ => .ok ⟨[[1]]⟩)
      (fun _ => .ok none) (fun _ => .ok .other)).1
      = .ok "Unable to process the AI response." :=
  generate_non_object_soft_fallback (some "w") (fun _ => .ok ⟨[[1]]⟩)
    (fun _ => .ok none) (fun _ => .ok .other)
    (messages [] systemPromptStr "w") .other (by decide) rfl
    (fun r h => by cases h)

/-- C5: whenever the generation call in a run of the `/query` handler
returns a well-formed (non-stream, object) result whose text field is
absent, the handler returns exactly the sentinel `No response available`
and does not fail. -/
theorem generate_no_text_sentinel (queryText : Option String)
    (embed : String → Except String EmbedResult)
    (search : Option (List ℚ) → Except String (Option SearchResults))
    (generate : List ChatMessage → Except String AiResult)
    (msgs : List ChatMessage)
    (hmem : Call.generateCall msgs
      ∈ (answerQueryV1 queryText embed search generate).2)
    (hgen : generate msgs = .ok (.obj none)) :
    (answerQueryV1 queryText embed search generate).1
      = .ok "No response available" :=
  answerQueryV1_generate_ok queryText embed search generate msgs (.obj none)
    hmem hgen

/-- Witness for C5 at a concrete run. -/
theorem generate_no_text_sentinel_witness :
    (answerQueryV1 (some "w") (fun _ => .ok ⟨[[1]]⟩)
      (fun _ => .ok none) (fun _ => .ok (.obj none))).1
      = .ok "No response available" :=
  generate_no_text_sentinel (some "w") (fun _ => .ok ⟨[[1]]⟩)
    (fun _ => .ok none) (fun _ => .ok (.obj none))
    (messages [] systemPromptStr "w") (by decide) rfl

/-- C6 counterexample: a concrete run in which the embedding call succeeds
but returns no data (`embeddings.data` is empty).  The `/query` handler
does not fail with an embedding error: it invokes the vector search with
an undefined query vector and completes normally. -/
theorem embedding_no_data_counterexample :
    (answerQueryV1 (some "q") (fun _ => .ok ⟨[]⟩)
      (fun _ => .ok (some ⟨[]⟩)) (fun _ => .ok (.obj (some "4")))).1
      = .ok "4"
    ∧ Call.searchCall none
      ∈ (answerQueryV1 (some "q") (fun _ => .ok ⟨[]⟩)
          (fun _ => .ok (some ⟨[]⟩)) (fun _ => .ok (.obj (some "4")))).2 := by
  constructor
  · rfl
  · decide

/-- C6 (amended): if the embedding call throws, the `/query` handler fails
with the propagated error and the vector search is never invoked (the call
trace stops at the embedding call).  When the embedding call instead
succeeds with no data, the handler proceeds and searches with an undefined
vector, as the counterexample shows. -/
theorem embedding_throw_propagates (queryText : Option String)
    (embed : String → Except String EmbedResult) (e : String)
    (h : embed (questionOf queryText) = .error e)
    (search : Option (List ℚ) → Except String (Option SearchResults))
    (generate : List ChatMessage → Except String AiResult) :
    answerQueryV1 queryText embed search generate
      = (.error e, [.embedCall (questionOf queryText)]) :=
  aq_embed_error h search generate

/-- Witness for C6 (amended) at a concrete run. -/
theorem embedding_throw_propagates_witness :
    answerQueryV1 (some "w") (fun _ => .error "embedding model error")
      (fun _ => .ok none) (fun _ => .ok .other)
      = (.error "embedding model error", [.embedCall "w"]) :=
  embedding_throw_propagates (some "w") (fun _ => .error "embedding model error")
    "embedding model error" rfl (fun _ => .ok none) (fun _ => .ok .other)

/-- C8: an empty (or absent) question is replaced by the fixed default
question, and the handler then behaves exactly as if the default question
had been asked — the empty question is never an error. -/
theorem empty_question_default
    (embed : String → Except String EmbedResult)
    (search : Option (List ℚ) → Except String (Option SearchResults))
    (generate : List ChatMessage → Except String AiResult) :
    questionOf (some "") = defaultQuestion
    ∧ questionOf none = defaultQuestion
    ∧ answerQueryV1 (some "") embed search generate
        = answerQueryV1 (some defaultQuestion) embed search generate
    ∧ answerQueryV1 none embed search generate
        = answerQueryV1 (some defaultQuestion) embed search generate := by
  have hq : questionOf (some defaultQuestion) = defaultQuestion := by decide
  have h0 : questionOf (some "") = defaultQuestion := rfl
  have hn : questionOf none = defaultQuestion := rfl
  refine ⟨rfl, rfl, ?_, ?_⟩
  · unfold answerQueryV1
    rw [hq, h0]
  · unfold answerQueryV1
    rw [hq, hn]

/-- C10: in any run of the `/query` handler, the text submitted to the
embedding model equals the content of the final, user-role message of the
prompt submitted to the generation model. -/
theorem embedded_equals_asked (queryText : Option String)
    (embed : String → Except String EmbedResult)
    (search : Option (List ℚ) → Except String (Option SearchResults))
    (generate : List ChatMessage → Except String AiResult)
    (t : String) (msgs : List ChatMessage)
    (hembed : Call.embedCall t
      ∈ (answerQueryV1 queryText embed search generate).2)
    (hgen : Call.generateCall msgs
      ∈ (answerQueryV1 queryText embed search generate).2) :
    msgs.getLast? = some ⟨Role.user, t⟩ := by
  cases hemb : embed (questionOf queryText) with
  | error e =>
    rw [aq_embed_error hemb search generate] at hgen
    simp at hgen
  | ok embeddings =>
    cases hsearch : search embeddings.data.head? with
    | error e =>
      rw [aq_search_error hemb hsearch generate] at hgen
      simp at hgen
    | ok results =>
      cases hg : generate (messages (notesStepV1 results) systemPromptStr
          (questionOf queryText)) with
      | error e =>
        rw [aq_generate_error hemb hsearch hg] at hembed hgen
        simp at hembed hgen
        subst hembed
        subst hgen
        exact messages_getLast _ _ _
      | ok r =>
        rw [aq_generate_ok hemb hsearch hg] at hembed hgen
        simp at hembed hgen
        subst hembed
        subst hgen
        exact messages_getLast _ _ _

/-- Witness for C10 at a concrete run. -/
theorem embedded_equals_asked_witness :
    (messages [] systemPromptStr defaultQuestion).getLast?
      = some ⟨Role.user, defaultQuestion⟩ :=
  embedded_equals_asked none (fun _ => .ok ⟨[]⟩) (fun _ => .ok none)
    (fun _ => .ok .other) defaultQuestion
    (messages [] systemPromptStr defaultQuestion) (by decide) (by decide)

/-- The note record returned by `xata.db.Notes.create`. -/
structure InsertedNote where
  id : String
  text : String
  embedding : List ℚ
deriving DecidableEq, Repr

/-- A value in the JSON object returned by the `/notes` handler. -/
inductive JsonValue where
  | str (s : String)
  | note (n : InsertedNote)
deriving DecidableEq, Repr

/-- Variant 1 `/notes` response, line 125: `c.json({ text, inserted })`. -/
def notesResponseV1 (text : String) (inserted : InsertedNote) :
    List (String × JsonValue) :=
  [("text", .str text), ("inserted", .note inserted)]

/-- Variant 2 `/notes` response, line 250: `c.json({ inserted })`. -/
def notesResponseV2 (inserted : InsertedNote) : List (String × JsonValue) :=
  [("inserted", .note inserted)]

/-- One external call performed by the `/notes` handler, with its argument. -/
inductive IngestCall where
  | embedCall (text : String)
  | createCall (text : String) (embedding : List ℚ)
deriving DecidableEq, Repr

/-- The shared logic of the `/notes` handler, lines 97-126 / 224-251
(identical in both variants up to the final response shape):
reject falsy `text` (`if (!text) throw 400 'Missing text'`) before any
external call; run the embedding model; reject a missing first vector
(`if (!values) throw 500`); only then call `Notes.create`; reject a falsy
create result (`if (!inserted) throw 500`).  The result pairs the outcome
(ok value `(text, inserted)`) with the trace of external calls. -/
def ingestNoteCore (text : Option String)
    (embed : String → Except String EmbedResult)
    (create : String → List ℚ → Except String (Option InsertedNote)) :
    Except String (String × InsertedNote) × List IngestCall :=
  match text with
  | none => (.error "Missing text", [])
  | some t =>
    if t = "" then (.error "Missing text", [])
    else
      match embed t with
      | .error e => (.error e, [.embedCall t])
      | .ok d =>
        match d.data.head? with
        | none => (.error "Failed to create vector embedding", [.embedCall t])
        | some values =>
          match create t values with
          | .error e => (.error e, [.embedCall t, .createCall t values])
          | .ok none =>
            (.error "Failed to create note", [.embedCall t, .createCall t values])
          | .ok (some inserted) =>
            (.ok (t, inserted), [.embedCall t, .createCall t values])

/-- The variant 1 `/notes` handler: the core logic followed by the
response `{ text, inserted }`. -/
def ingestNoteV1 (text : Option String)
    (embed : String → Except String EmbedResult)
    (create : String → List ℚ → Except String (Option InsertedNote)) :
    Except String (List (String × JsonValue)) × List IngestCall :=
  ((ingestNoteCore text embed create).1.map
      (fun p => notesResponseV1 p.1 p.2),
   (ingestNoteCore text embed create).2)

/-- The variant 2 `/notes` handler: the core logic followed by the
response `{ inserted }`. -/
def ingestNoteV2 (text : Option String)
    (embed : String → Except String EmbedResult)
    (create : String → List ℚ → Except String (Option InsertedNote)) :
    Except String (List (String × JsonValue)) × List IngestCall :=
  ((ingestNoteCore text embed create).1.map
      (fun p => notesResponseV2 p.2),
   (ingestNoteCore text embed create).2)

/-- Helper: the `/notes` handler when the embedding call throws. -/
theorem ing_embed_error {t e : String}
    {embed : String → Except String EmbedResult} (ht : ¬t = "")
    (hemb : embed t = .error e)
    (create : String → List ℚ → Except String (Option InsertedNote)) :
    ingestNoteCore (some t) embed create = (.error e, [.embedCall t]) := by
  simp only [ingestNoteCore]
  rw [if_neg ht, hemb]

/-- Helper: the `/notes` handler when the embedding call returns no data. -/
theorem ing_no_data {t : String} {d : EmbedResult}
    {embed : String → Except String EmbedResult} (ht : ¬t = "")
    (hemb : embed t = .ok d) (hvals : d.data.head? = none)
    (create : String → List ℚ → Except String (Option InsertedNote)) :
    ingestNoteCore (some t) embed create
      = (.error "Failed to create vector embedding", [.embedCall t]) := by
  simp only [ingestNoteCore]
  rw [if_neg ht, hemb]
  simp only [hvals]

/-- Helper: the `/notes` handler once the embedding stage has produced a
vector, as a function of the store-write result. -/
theorem ing_create {t : String} {d : EmbedResult} {values : List ℚ}
    {embed : String → Except String EmbedResult}
    {create : String → List ℚ → Except String (Option InsertedNote)}
    (ht : ¬t = "") (hemb : embed t = .ok d)
    (hvals : d.data.head? = some values) :
    ingestNoteCore (some t) embed create
      = (match create t values with
         | .error e => .error e
         | .ok none => .error "Failed to create note"
         | .ok (some inserted) => .ok (t, inserted),
         [.embedCall t, .createCall t values]) := by
  simp only [ingestNoteCore]
  rw [if_neg ht, hemb]
  simp only [hvals]
  cases create t values with
  | error e => rfl
  | ok inserted => cases inserted <;> rfl

/-- C7: a missing or empty note text is rejected with the validation error
before any external call (the call trace is empty), and the store write
(`Notes.create`) appears in the trace only when the embedding call has
already succeeded and produced a first vector — so a failing embedding
leaves the store untouched. -/
theorem ingest_validation_and_ordering (text : Option String)
    (embed : String → Except String EmbedResult)
    (create : String → List ℚ → Except String (Option InsertedNote)) :
    ((text = none ∨ text = some "") →
      ingestNoteCore text embed create = (.error "Missing text", []))
    ∧ (∀ tc vc, IngestCall.createCall tc vc
        ∈ (ingestNoteCore text embed create).2 →
        ∃ d, text = some tc ∧ embed tc = .ok d ∧ d.data.head? = some vc) := by
  constructor
  · rintro (h | h) <;> subst h <;> rfl
  · intro tc vc hmem
    cases text with
    | none => simp [ingestNoteCore] at hmem
    | some t =>
      by_cases ht : t = ""
      · subst ht
        simp [ingestNoteCore] at hmem
      · cases hemb : embed t with
        | error e =>
          rw [ing_embed_error ht hemb create] at hmem
          simp at hmem
        | ok d =>
          cases hvals : d.data.head? with
          | none =>
            rw [ing_no_data ht hemb hvals create] at hmem
            simp at hmem
          | some values =>
            rw [ing_create ht hemb hvals] at hmem
            simp at hmem
            obtain ⟨h1, h2⟩ := hmem
            subst h1
            subst h2
            exact ⟨d, rfl, hemb, hvals⟩

/-- Witness for C7: the empty text is rejected with no calls, and in a
concrete successful run the store write carries the embedding vector. -/
theorem ingest_validation_and_ordering_witness :
    ingestNoteCore (some "") (fun _ => .ok ⟨[[1]]⟩) (fun _ _ => .ok none)
      = (.error "Missing text", [])
    ∧ ∃ d, (some "hello" : Option String) = some "hello"
        ∧ (fun _ : String => (.ok ⟨[[1]]⟩ : Except String EmbedResult)) "hello"
            = .ok d
        ∧ d.data.head? = some [1] :=
  ⟨(ingest_validation_and_ordering (some "") (fun _ => .ok ⟨[[1]]⟩)
      (fun _ _ => .ok none)).1 (Or.inr rfl),
   (ingest_validation_and_ordering (some "hello") (fun _ => .ok ⟨[[1]]⟩)
      (fun t v => .ok (some ⟨"rec1", t, v⟩))).2 "hello" [1] (by decide)⟩

/-- Helper: the core `/notes` logic succeeds only on the text it was given. -/
theorem ingestNoteCore_ok_text {text : Option String}
    {embed : String → Except String EmbedResult}
    {create : String → List ℚ → Except String (Option InsertedNote)}
    {t : String} {n : InsertedNote}
    (h : (ingestNoteCore text embed create).1 = .ok (t, n)) :
    text = some t := by
  cases text with
  | none => simp [ingestNoteCore] at h
  | some t0 =>
    by_cases ht : t0 = ""
    · subst ht
      simp [ingestNoteCore] at h
    · cases hemb : embed t0 with
      | error e => rw [ing_embed_error ht hemb create] at h; simp at h
      | ok d =>
        cases hvals : d.data.head? with
        | none => rw [ing_no_data ht hemb hvals create] at h; simp at h
        | some values =>
          rw [ing_create ht hemb hvals] at h
          cases hc : create t0 values with
          | error e => rw [hc] at h; simp at h
          | ok inserted =>
            cases inserted with
            | none => rw [hc] at h; simp at h
            | some n0 =>
              rw [hc] at h
              simp at h
              rw [h.1]

/-- C9 counterexample: a concrete successful run of variant 2's `/notes`
handler whose response is only `{ inserted }` — it has no `text` field,
so the returned value does not contain the input text alongside the note. -/
theorem notesResponse_missing_text_counterexample :
    (ingestNoteV2 (some "hello") (fun _ => .ok ⟨[[1]]⟩)
        (fun t v => .ok (some ⟨"rec1", t, v⟩))).1
      = .ok [("inserted", .note ⟨"rec1", "hello", [1]⟩)]
    ∧ List.lookup "text"
        [("inserted", JsonValue.note ⟨"rec1", "hello", [1]⟩)] = none := by
  constructor
  · rfl
  · rfl

/-- C9 (amended): a successful `createNote` returns `{text, note}` in
variant 1 — the response carries the input text and the created note —
while in variant 2 it returns only `{note}` (the inserted record), with
no text field. -/
theorem notesResponse_shape (text : Option String)
    (embed : String → Except String EmbedResult)
    (create : String → List ℚ → Except String (Option InsertedNote)) :
    (∀ resp, (ingestNoteV1 text embed create).1 = .ok resp →
      ∃ t n, text = some t ∧ resp = notesResponseV1 t n)
    ∧ (∀ resp, (ingestNoteV2 text embed create).1 = .ok resp →
      ∃ n, resp = notesResponseV2 n) := by
  constructor
  · intro resp hresp
    unfold ingestNoteV1 at hresp
    cases hcore : (ingestNoteCore text embed create).1 with
    | error e => rw [hcore] at hresp; simp [Except.map] at hresp
    | ok p =>
      rw [hcore] at hresp
      simp [Except.map] at hresp
      exact ⟨p.1, p.2, ingestNoteCore_ok_text (by rw [hcore]), hresp.symm⟩
  · intro resp hresp
    unfold ingestNoteV2 at hresp
    cases hcore : (ingestNoteCore text embed create).1 with
    | error e => rw [hcore] at hresp; simp [Except.map] at hresp
    | ok p =>
      rw [hcore] at hresp
      simp [Except.map] at hresp
      exact ⟨p.2, hresp.symm⟩

/-- Witness for C9 (amended) at a concrete successful run of each variant. -/
theorem notesResponse_shape_witness :
    (∃ t n, (some "hello" : Option String) = some t
      ∧ notesResponseV1 "hello" ⟨"rec1", "hello", [1]⟩ = notesResponseV1 t n)
    ∧ (∃ n, notesResponseV2 ⟨"rec1", "hello", [1]⟩ = notesResponseV2 n) :=
  ⟨(notesResponse_shape (some "hello") (fun _ => .ok ⟨[[1]]⟩)
      (fun t v => .ok (some ⟨"rec1", t, v⟩))).1
      (notesResponseV1 "hello" ⟨"rec1", "hello", [1]⟩) rfl,
   (notesResponse_shape (some "hello") (fun _ => .ok ⟨[[1]]⟩)
      (fun t v => .ok (some ⟨"rec1", t, v⟩))).2
      (notesResponseV2 ⟨"rec1", "hello", [1]⟩) rfl⟩

end WorkersRag
